import Mathlib

/-!
Verification of the workflow orchestration subsystem of the toonsync
repository.  The repository ships the web client (React/TypeScript); the
backend controller is consumed through its HTTP and WebSocket interfaces.
Frontend code is embedded directly from the source files; the backend
control operations, absent from the sources, are modelled from the
specification and marked as such in their doc comments.
-/

/-! ## Frontend data model (frontend/src/types, file part_012) -/

/-- Embeds the TypeScript interface Workflow from the shared types module.
The config field is untyped in the source and is modelled as its JSON
text; project_id and error_message are optional in the source. -/
structure Workflow where
  id : String
  workflow_id : String
  user_id : String
  project_id : Option String
  created_at : String
  updated_at : String
  status : String
  current_step : String
  progress : ℚ
  config : String
  error_message : Option String
deriving DecidableEq

/-- Embeds the string-literal union giving the type field of
WebSocketMessage in the shared types module. -/
inductive WSType where
  | progress
  | status
  | error
  | success
  | info
deriving DecidableEq

/-- The literal each WSType alternative stands for in the source. -/
def WSType.toName : WSType → String
  | .progress => "progress"
  | .status => "status"
  | .error => "error"
  | .success => "success"
  | .info => "info"

/-- Embeds one entry of the solutions list of ErrorResponse.error. -/
structure WSSolution where
  title : String
  description : String
  steps : Option (List String)
  documentation_url : Option String
deriving DecidableEq

/-- Embeds the object type of ErrorResponse.error from the shared types
module. -/
structure WSErrorInfo where
  code : Int
  message : String
  category : String
  details : Option String
  solutions : Option (List WSSolution)
deriving DecidableEq

/-- Model of the untyped data field of a WebSocketMessage, carrying the
fields the WorkflowPage effect reads from it: data.workflow_id (read
through optional chaining, hence optional), data.percentage, data.step
and data.status. -/
structure WSData where
  workflow_id : Option String
  percentage : ℚ
  step : String
  status : String
deriving DecidableEq

/-- Embeds the TypeScript interface WebSocketMessage: fields type,
message, data (optional, untyped), error (optional) and timestamp. -/
structure WebSocketMessage where
  type : WSType
  message : String
  data : Option WSData
  error : Option WSErrorInfo
  timestamp : String
deriving DecidableEq

/-- The top-level property names of the WebSocketMessage interface, in
source order. -/
def webSocketMessageFields : List String :=
  ["type", "message", "data", "error", "timestamp"]

/-- The five admissible values of the type field, in source order. -/
def wsTypeValues : List String :=
  ["progress", "status", "error", "success", "info"]

/-! ## Spec-side vocabularies, named from the specification text, for
refinement comparison against the code-side definitions above. -/

/-- From the spec: the six statuses a Workflow may hold. -/
def specStatusValues : List String :=
  ["pending", "running", "paused", "completed", "failed", "cancelled"]

/-- From the spec: the fixed step sequence. -/
def specStepIds : List String :=
  ["script_parsing", "character_generation", "storyboard_generation",
   "lip_sync", "sound_effects", "rendering", "export"]

/-- From the spec: the top-level fields of a live-update payload. -/
def specTopLevelFields : List String :=
  ["type", "workflow_id", "percentage", "step", "message", "timestamp"]

/-! ## Step catalogue (frontend/src/pages/Workflow/WorkflowPage.tsx) -/

/-- Shape of one WORKFLOW_STEPS entry. -/
structure WorkflowStep where
  id : String
  name : String
  icon : String
  description : String
deriving DecidableEq

/-- Embeds the WORKFLOW_STEPS constant of WorkflowPage.tsx. -/
def WORKFLOW_STEPS : List WorkflowStep :=
  [ { id := "script", name := "剧本解析", icon := "📝", description := "分析剧本内容" },
    { id := "characters", name := "角色提取", icon := "👤", description := "提取角色特征" },
    { id := "storyboard", name := "分镜生成", icon := "🎬", description := "生成分镜图像" },
    { id := "lip_sync", name := "口型同步", icon := "🗣️", description := "同步音频和口型" },
    { id := "sound_effects", name := "音效匹配", icon := "🎵", description := "添加背景音效" },
    { id := "rendering", name := "视频渲染", icon := "🎥", description := "合成最终视频" },
    { id := "export", name := "导出完成", icon := "✅", description := "准备下载" } ]

/-! ## HTTP requests issued by the client (frontend/src/api/workflow, file
part_010) -/

/-- An HTTP request as the axios client issues it: method, path and the
JSON body given as key/value pairs (booleans rendered as their JSON
text). -/
structure ApiRequest where
  method : String
  path : String
  body : List (String × String)
deriving DecidableEq

/-- Embeds workflowApi.startWorkflow: posts to
/workflows/start_from_project with body fields project_id and
auto_mode set to true. -/
def startWorkflowRequest (project_id : String) : ApiRequest :=
  { method := "POST",
    path := "/workflows/start_from_project",
    body := [("project_id", project_id), ("auto_mode", "true")] }

/-- Embeds workflowApi.pauseWorkflow. -/
def pauseWorkflowRequest (workflowId : String) : ApiRequest :=
  { method := "POST", path := "/workflows/" ++ workflowId ++ "/pause", body := [] }

/-- Embeds workflowApi.resumeWorkflow. -/
def resumeWorkflowRequest (workflowId : String) : ApiRequest :=
  { method := "POST", path := "/workflows/" ++ workflowId ++ "/resume", body := [] }

/-- Embeds workflowApi.cancelWorkflow; the source discards the response
body, returning Promise of void. -/
def cancelWorkflowRequest (workflowId : String) : ApiRequest :=
  { method := "POST", path := "/workflows/" ++ workflowId ++ "/cancel", body := [] }

/-! ## The WorkflowPage WebSocket effect and control handlers
(frontend/src/pages/Workflow/WorkflowPage.tsx) -/

/-- The value of the optional chain msg.data?.workflow_id. -/
def dataWorkflowId (d : Option WSData) : Option String :=
  d.bind (fun x => x.workflow_id)

/-- Embeds the body of the WebSocket effect of WorkflowPage for one
message: a progress message whose data.workflow_id triple-equals the
loaded workflow id overwrites progress and current_step with
data.percentage and data.step; a status message under the same guard
overwrites status with data.status; anything else leaves the state
alone.  The state is Option Workflow because the page may hold no
workflow yet, in which case the setter keeps null. -/
def applyMessage (w : Option Workflow) (m : WebSocketMessage) : Option Workflow :=
  if m.type = WSType.progress ∧ dataWorkflowId m.data = w.map (fun p => p.id) then
    match w, m.data with
    | some p, some d => some { p with progress := d.percentage, current_step := d.step }
    | _, _ => w
  else if m.type = WSType.status ∧ dataWorkflowId m.data = w.map (fun p => p.id) then
    match w, m.data with
    | some p, some d => some { p with status := d.status }
    | _, _ => w
  else
    w

/-- The effect iterates over the whole accumulated message list. -/
def applyMessages (w : Option Workflow) (ms : List WebSocketMessage) : Option Workflow :=
  ms.foldl applyMessage w

/-- A status message for a given workflow id, as the guard of the effect
sees it. -/
def mkStatusMsg (wid s : String) : WebSocketMessage :=
  { type := WSType.status, message := "",
    data := some { workflow_id := some wid, percentage := 0, step := "", status := s },
    error := none, timestamp := "" }

/-- A progress message for a given workflow id carrying a percentage and
a step identifier. -/
def mkProgressMsg (wid : String) (p : ℚ) (st : String) : WebSocketMessage :=
  { type := WSType.progress, message := "",
    data := some { workflow_id := some wid, percentage := p, step := st, status := "" },
    error := none, timestamp := "" }

/-- Embeds handleCancel of WorkflowPage: bails out when no workflow is
loaded or the user rejects the confirm dialog; otherwise posts the
cancel request and, when the call succeeds, overwrites the local
status with the literal failed; on a rejected call it alerts and
leaves the state alone. -/
def handleCancel (w : Option Workflow) (confirmed : Bool) (apiOk : Bool) : Option Workflow :=
  match w with
  | none => none
  | some p =>
    if confirmed then
      if apiOk then some { p with status := "failed" } else some p
    else
      some p

/-! ## The useWebSocket message handler (frontend/src/hooks, file
part_022) -/

/-- Embeds the onmessage handler of useWebSocket: the frame text is fed
to JSON.parse (modelled as an arbitrary partial parsing function);
a successfully parsed message is appended to the accumulated list,
while a parse failure is caught, logged and leaves the list alone. -/
def onMessage (parse : String → Option WebSocketMessage)
    (msgs : List WebSocketMessage) (frame : String) : List WebSocketMessage :=
  match parse frame with
  | some m => msgs ++ [m]
  | none => msgs

/-! ## Workflow Controller, modelled from the specification.  The backend
that implements these operations is not among the shipped sources; only
its HTTP callers are.  The definitions below follow §4.1 and §6 of the
specification verbatim. -/

/-- Modelled from the spec: the six-value status set of the Controller
state machine. -/
inductive CtrlStatus where
  | pending
  | running
  | paused
  | completed
  | failed
  | cancelled
deriving DecidableEq

/-- Modelled from the spec: the control-operation error taxonomy of §7
relevant to start, pause, resume and cancel. -/
inductive CtrlError where
  | invalidTransition
  | alreadyRunning
deriving DecidableEq

/-- Modelled from the spec: one step_history entry. -/
structure StepEntry where
  step_id : String
  status : String
  started_at : String
  completed_at : Option String
  error : Option String
deriving DecidableEq

/-- Modelled from the spec: the Workflow record the Controller owns. -/
structure CtrlWorkflow where
  id : String
  project_id : String
  owner_id : String
  status : CtrlStatus
  current_step : Option String
  progress : ℚ
  step_history : List StepEntry
  pause_requested : Bool
deriving DecidableEq

namespace Controller

/-- Modelled from the spec: pause is valid only from running; it sets the
cooperative pause flag and transitions to paused, failing with
InvalidTransition from any other status with no state change. -/
def pause (w : CtrlWorkflow) : Except CtrlError CtrlWorkflow :=
  if w.status = CtrlStatus.running then
    Except.ok { w with status := CtrlStatus.paused, pause_requested := true }
  else
    Except.error CtrlError.invalidTransition

/-- Modelled from the spec: resume is valid only from paused; it clears
the pause flag and restarts execution at current_step (which it does
not change), failing with InvalidTransition from any other status
with no state change. -/
def resume (w : CtrlWorkflow) : Except CtrlError CtrlWorkflow :=
  if w.status = CtrlStatus.paused then
    Except.ok { w with status := CtrlStatus.running, pause_requested := false }
  else
    Except.error CtrlError.invalidTransition

/-- Modelled from the spec: cancel is valid from running or paused and
transitions to cancelled. -/
def cancel (w : CtrlWorkflow) : Except CtrlError CtrlWorkflow :=
  if w.status = CtrlStatus.running ∨ w.status = CtrlStatus.paused then
    Except.ok { w with status := CtrlStatus.cancelled }
  else
    Except.error CtrlError.invalidTransition

/-- Whether an active (running) workflow exists for a project in the
store. -/
def hasActive (store : List CtrlWorkflow) (pid : String) : Bool :=
  store.any (fun w => w.project_id = pid ∧ w.status = CtrlStatus.running)

/-- Modelled from the spec: start fails with AlreadyRunning if an active
workflow exists for the project; otherwise it creates a pending
Workflow, transitions it to running, and begins step 1 of the fixed
sequence. -/
def start (store : List CtrlWorkflow) (newId pid owner : String) :
    Except CtrlError (CtrlWorkflow × List CtrlWorkflow) :=
  if hasActive store pid then
    Except.error CtrlError.alreadyRunning
  else
    let w : CtrlWorkflow :=
      { id := newId, project_id := pid, owner_id := owner,
        status := CtrlStatus.running, current_step := some "script_parsing",
        progress := 0, step_history := [], pause_requested := false }
    Except.ok (w, store ++ [w])

/-- Modelled from the spec: the HTTP face of start, answering 201 with
the created snapshot or 409 AlreadyRunning with the store unchanged. -/
def startRoute (store : List CtrlWorkflow) (newId pid owner : String) :
    Nat × List CtrlWorkflow :=
  match start store newId pid owner with
  | Except.ok (_, store2) => (201, store2)
  | Except.error _ => (409, store)

end Controller

/-! ## Concrete fixtures for counterexamples and witnesses -/

/-- A loaded workflow in the running status, used as a concrete input. -/
def w0run : Workflow :=
  { id := "wf1", workflow_id := "wf1", user_id := "u1", project_id := some "p1",
    created_at := "", updated_at := "", status := "running",
    current_step := "lip_sync", progress := 0, config := "", error_message := none }

/-- A controller-side workflow in the running status. -/
def wRunning : CtrlWorkflow :=
  { id := "wf1", project_id := "p1", owner_id := "u1",
    status := CtrlStatus.running, current_step := some "lip_sync",
    progress := 0, step_history := [], pause_requested := false }

/-- A controller-side workflow in the paused status. -/
def wPausedFix : CtrlWorkflow :=
  { id := "wf2", project_id := "p1", owner_id := "u1",
    status := CtrlStatus.paused, current_step := some "lip_sync",
    progress := 0, step_history := [], pause_requested := true }

/-! ## Claim C1 -/

/-- Claim C1 counterexample: on the concrete running workflow w0run, a
confirmed and successful cancel leaves the client showing status
failed, not cancelled; and the state after cancel is not terminal,
since a later status message for the same workflow overwrites it. -/
theorem C1_counterexample :
    w0run.status = "running" ∧
    (handleCancel (some w0run) true true).map (fun w => w.status) = some "failed" ∧
    "failed" ≠ "cancelled" ∧
    (applyMessage (handleCancel (some w0run) true true)
        (mkStatusMsg "wf1" "in_progress")).map (fun w => w.status) =
      some "in_progress" := by
  decide

/-- Claim C1 (amended): the cancel operation posts to the cancel route
and discards the response, and on success the client marks the
displayed workflow status as failed. -/
theorem C1_cancel_marks_failed (w : Workflow) :
    handleCancel (some w) true true = some { w with status := "failed" } ∧
    (cancelWorkflowRequest w.id).method = "POST" ∧
    (cancelWorkflowRequest w.id).path = "/workflows/" ++ w.id ++ "/cancel" :=
  ⟨rfl, rfl, rfl⟩

/-! ## Claim C2 -/

/-- Claim C2 counterexample: the step identifiers of the catalogue differ
from the specified sequence already at the first entry, which is
script rather than script_parsing. -/
theorem C2_counterexample :
    WORKFLOW_STEPS.map (fun s => s.id) ≠ specStepIds ∧
    (WORKFLOW_STEPS.map (fun s => s.id)).head? = some "script" ∧
    specStepIds.head? = some "script_parsing" := by
  decide

/-- Claim C2 (amended): the step catalogue is exactly the seven distinct
steps script, characters, storyboard, lip_sync, sound_effects,
rendering, export, in that fixed order. -/
theorem C2_step_catalogue :
    WORKFLOW_STEPS.map (fun s => s.id) =
      ["script", "characters", "storyboard", "lip_sync",
       "sound_effects", "rendering", "export"] ∧
    WORKFLOW_STEPS.length = 7 ∧
    (WORKFLOW_STEPS.map (fun s => s.id)).Nodup := by
  refine ⟨rfl, rfl, by decide⟩

/-! ## Claim C3 -/

/-- Claim C3 counterexample: the start operation is issued against
/workflows/start_from_project, not /workflows/start, and its body
carries auto_mode in addition to project_id. -/
theorem C3_counterexample :
    (startWorkflowRequest "p1").path ≠ "/workflows/start" ∧
    (startWorkflowRequest "p1").path = "/workflows/start_from_project" ∧
    (startWorkflowRequest "p1").body.map Prod.fst = ["project_id", "auto_mode"] := by
  decide

/-- Claim C3 (amended): start is issued as POST
/workflows/start_from_project with body fields project_id and
auto_mode; the controller route, modelled from the spec, answers 201
with the created snapshot when no active workflow exists for the
project and 409 AlreadyRunning with the store unchanged when one
does. -/
theorem C3_start_route (pid newId owner : String) (store : List CtrlWorkflow) :
    (startWorkflowRequest pid).method = "POST" ∧
    (startWorkflowRequest pid).path = "/workflows/start_from_project" ∧
    (startWorkflowRequest pid).body = [("project_id", pid), ("auto_mode", "true")] ∧
    (Controller.hasActive store pid = false →
      ∃ w, Controller.start store newId pid owner = Except.ok (w, store ++ [w]) ∧
        Controller.startRoute store newId pid owner = (201, store ++ [w])) ∧
    (Controller.hasActive store pid = true →
      Controller.start store newId pid owner = Except.error CtrlError.alreadyRunning ∧
        Controller.startRoute store newId pid owner = (409, store)) := by
  refine ⟨rfl, rfl, rfl, ?_, ?_⟩
  · intro h
    refine ⟨{ id := newId, project_id := pid, owner_id := owner,
              status := CtrlStatus.running, current_step := some "script_parsing",
              progress := 0, step_history := [], pause_requested := false }, ?_, ?_⟩
    · simp [Controller.start, h]
    · simp [Controller.startRoute, Controller.start, h]
  · intro h
    exact ⟨by simp [Controller.start, h], by simp [Controller.startRoute, Controller.start, h]⟩

/-- Claim C3 witness: the modelled route at concrete inputs, with both
hypotheses discharged on concrete stores. -/
theorem C3_start_route_witness :
    (Controller.hasActive [] "p1" = false ∧
      ∃ w, Controller.start [] "w1" "p1" "u1" = Except.ok (w, [] ++ [w]) ∧
        Controller.startRoute [] "w1" "p1" "u1" = (201, [] ++ [w])) ∧
    (Controller.hasActive [wRunning] "p1" = true ∧
      Controller.start [wRunning] "w2" "p1" "u1" = Except.error CtrlError.alreadyRunning ∧
        Controller.startRoute [wRunning] "w2" "p1" "u1" = (409, [wRunning])) :=
  ⟨⟨by decide, (C3_start_route "p1" "w1" "u1" []).2.2.2.1 (by decide)⟩,
   ⟨by decide, (C3_start_route "p1" "w2" "u1" [wRunning]).2.2.2.2 (by decide)⟩⟩

/-! ## Claim C4 -/

/-- Claim C4: the resume operation, modelled from the spec since the
controller is not among the shipped sources, succeeds exactly on a
paused workflow, where it clears the pause flag and returns to
running; from any other status it fails with InvalidTransition and
touches nothing. -/
theorem C4_resume_only_from_paused (w : CtrlWorkflow) :
    (w.status = CtrlStatus.paused →
      Controller.resume w =
        Except.ok { w with status := CtrlStatus.running, pause_requested := false }) ∧
    (w.status ≠ CtrlStatus.paused →
      Controller.resume w = Except.error CtrlError.invalidTransition) := by
  constructor <;> intro h <;> simp [Controller.resume, h]

/-- Claim C4 witness: resume on a concrete paused workflow succeeds and
resume on a concrete running workflow is rejected. -/
theorem C4_resume_only_from_paused_witness :
    (wPausedFix.status = CtrlStatus.paused ∧
      Controller.resume wPausedFix =
        Except.ok { wPausedFix with status := CtrlStatus.running, pause_requested := false }) ∧
    (wRunning.status ≠ CtrlStatus.paused ∧
      Controller.resume wRunning = Except.error CtrlError.invalidTransition) :=
  ⟨⟨rfl, (C4_resume_only_from_paused wPausedFix).1 rfl⟩,
   ⟨by decide, (C4_resume_only_from_paused wRunning).2 (by decide)⟩⟩

/-! ## Claim C5 -/

/-- Claim C5 counterexample: a status message carrying in_progress, the
literal the client itself branches on, drives the status of the
concrete workflow w0run out of the six-value set of the spec. -/
theorem C5_counterexample :
    w0run.status ∈ specStatusValues ∧
    (applyMessage (some w0run) (mkStatusMsg "wf1" "in_progress")).map (fun w => w.status) =
      some "in_progress" ∧
    "in_progress" ∉ specStatusValues := by
  decide

/-- Claim C5 (amended): the status field is an unconstrained string and a
matching status event sets it verbatim to any string whatsoever, so
no fixed six-value vocabulary is preserved by the client. -/
theorem C5_status_overwritten (w : Workflow) (s : String) :
    applyMessage (some w) (mkStatusMsg w.id s) = some { w with status := s } := by
  simp [applyMessage, mkStatusMsg, dataWorkflowId]

/-! ## Claim C6 -/

/-- Claim C6 counterexample: a progress event with percentage 2 pushes
the progress of the concrete workflow w0run above 1, and a following
event with percentage 0 pulls it back down with no checkpoint restart
involved, so neither the unit-interval bound nor monotonicity holds. -/
theorem C6_counterexample :
    (applyMessage (some w0run) (mkProgressMsg "wf1" 2 "lip_sync")).map (fun w => w.progress) =
      some 2 ∧
    ¬ ((2 : ℚ) ≤ 1) ∧
    (applyMessage (applyMessage (some w0run) (mkProgressMsg "wf1" 2 "lip_sync"))
        (mkProgressMsg "wf1" 0 "lip_sync")).map (fun w => w.progress) = some 0 ∧
    (0 : ℚ) < 2 := by
  decide

/-- Claim C6 (amended): a matching progress event sets progress verbatim
to the percentage the event carries and current_step to its step,
with no clamping to the unit interval and no monotonicity check. -/
theorem C6_progress_overwritten (w : Workflow) (p : ℚ) (st : String) :
    applyMessage (some w) (mkProgressMsg w.id p st) =
      some { w with progress := p, current_step := st } := by
  simp [applyMessage, mkProgressMsg, dataWorkflowId]

/-! ## Claim C7 -/

/-- Claim C7 counterexample: the fields workflow_id, percentage and step
claimed to sit at top level of a live-update payload are absent from
the WebSocketMessage interface, whose top-level fields are type,
message, data, error and timestamp. -/
theorem C7_counterexample :
    "workflow_id" ∈ specTopLevelFields ∧
    "workflow_id" ∉ webSocketMessageFields ∧
    "percentage" ∉ webSocketMessageFields ∧
    "step" ∉ webSocketMessageFields ∧
    webSocketMessageFields ≠ specTopLevelFields := by
  decide

/-- Claim C7 (amended): every live-update payload has the top-level
fields type, message, data, error, timestamp, with type one of
progress, status, error, success, info; workflow_id, percentage and
step ride inside the untyped data field, where the consumer reads
them. -/
theorem C7_payload_shape :
    (∀ t : WSType, t.toName ∈ wsTypeValues) ∧
    webSocketMessageFields = ["type", "message", "data", "error", "timestamp"] ∧
    webSocketMessageFields.Nodup ∧
    (∀ m : WebSocketMessage, dataWorkflowId m.data = m.data.bind (fun d => d.workflow_id)) := by
  refine ⟨?_, rfl, by decide, fun m => rfl⟩
  intro t
  cases t <;> decide

/-! ## Claim C8 -/

/-- Claim C8: with the controller modelled from the spec, pause on a
running workflow followed immediately by resume succeeds and leaves
both current_step and the accumulated step_history exactly as they
were, returning the workflow to running. -/
theorem C8_pause_resume_preserves (w : CtrlWorkflow)
    (hrun : w.status = CtrlStatus.running) :
    ∃ w1 w2, Controller.pause w = Except.ok w1 ∧
      Controller.resume w1 = Except.ok w2 ∧
      w2.current_step = w.current_step ∧
      w2.step_history = w.step_history ∧
      w2.status = CtrlStatus.running := by
  refine ⟨{ w with status := CtrlStatus.paused, pause_requested := true },
          { w with status := CtrlStatus.running, pause_requested := false },
          ?_, ?_, rfl, rfl, rfl⟩
  · simp [Controller.pause, hrun]
  · simp [Controller.resume]

/-- Claim C8 witness: the pause-then-resume round trip on the concrete
running workflow wRunning. -/
theorem C8_pause_resume_preserves_witness :
    wRunning.status = CtrlStatus.running ∧
    ∃ w1 w2, Controller.pause wRunning = Except.ok w1 ∧
      Controller.resume w1 = Except.ok w2 ∧
      w2.current_step = wRunning.current_step ∧
      w2.step_history = wRunning.step_history ∧
      w2.status = CtrlStatus.running :=
  ⟨rfl, C8_pause_resume_preserves wRunning rfl⟩

/-! ## Claim C9 -/

/-- Claim C9: a progress or status message whose data.workflow_id is not
the id of the loaded workflow leaves the displayed workflow state
entirely unchanged. -/
theorem C9_frame_other_workflow (w : Workflow) (m : WebSocketMessage)
    (_htype : m.type = WSType.progress ∨ m.type = WSType.status)
    (hid : dataWorkflowId m.data ≠ some w.id) :
    applyMessage (some w) m = some w := by
  unfold applyMessage
  rw [if_neg fun h => hid h.2, if_neg fun h => hid h.2]

/-- Claim C9 witness: a status message for a different workflow id leaves
the concrete loaded workflow w0run untouched. -/
theorem C9_frame_other_workflow_witness :
    ((mkStatusMsg "other" "completed").type = WSType.progress ∨
      (mkStatusMsg "other" "completed").type = WSType.status) ∧
    dataWorkflowId (mkStatusMsg "other" "completed").data ≠ some w0run.id ∧
    applyMessage (some w0run) (mkStatusMsg "other" "completed") = some w0run :=
  ⟨Or.inr rfl, by decide,
   C9_frame_other_workflow w0run (mkStatusMsg "other" "completed") (Or.inr rfl) (by decide)⟩

/-! ## Claim C10 -/

/-- Claim C10: the onmessage handler of useWebSocket appends exactly the
successfully parsed frames to the accumulated message list; a frame
the parser rejects is swallowed by the catch and leaves the list
unchanged, for every parsing function, state and frame. -/
theorem C10_onmessage_appends_only_parsed (parse : String → Option WebSocketMessage)
    (msgs : List WebSocketMessage) (frame : String) :
    (parse frame = none → onMessage parse msgs frame = msgs) ∧
    (∀ m, parse frame = some m → onMessage parse msgs frame = msgs ++ [m]) := by
  constructor
  · intro h
    simp [onMessage, h]
  · intro m h
    simp [onMessage, h]

/-- Claim C10 witness: a concrete parser that accepts exactly the frame
ok, evaluated on a rejected and on an accepted frame. -/
theorem C10_onmessage_appends_only_parsed_witness :
    ((fun s => if s = "ok" then some (mkStatusMsg "w" "s") else none) "bad" = none ∧
      onMessage (fun s => if s = "ok" then some (mkStatusMsg "w" "s") else none) [] "bad" = []) ∧
    ((fun s => if s = "ok" then some (mkStatusMsg "w" "s") else none) "ok" =
        some (mkStatusMsg "w" "s") ∧
      onMessage (fun s => if s = "ok" then some (mkStatusMsg "w" "s") else none) [] "ok" =
        [] ++ [mkStatusMsg "w" "s"]) :=
  ⟨⟨by decide,
    (C10_onmessage_appends_only_parsed
      (fun s => if s = "ok" then some (mkStatusMsg "w" "s") else none) [] "bad").1 (by decide)⟩,
   ⟨by decide,
    (C10_onmessage_appends_only_parsed
      (fun s => if s = "ok" then some (mkStatusMsg "w" "s") else none) [] "ok").2
      (mkStatusMsg "w" "s") (by decide)⟩⟩
